import Mathlib

/-!
Verification of the event-driven phase controller of `run-is.py` (gem5 IS-A
benchmark run script).

The script's controller logic consists of three Python generator functions
(`on_exit`, `on_work_begin`, `on_work_end`) registered as exit-event handlers
of a `Simulator`.  Each generator is embedded as a cursor-indexed step
function: the cursor counts prior firings of the owning event kind, each
`yield` boundary is one step, the side effects performed since the previous
`yield` are the step's action list, and the yielded boolean is the halt
decision.  An exhausted generator (Python `StopIteration`) is `none`.

The `Simulator` run loop, the handler registry, and the body of
`SimpleSwitchableProcessor.switch` are gem5 library code that is not part of
the repository sources; those parts are modelled from the specification and
are marked as such in their doc comments.
-/

namespace RunIS

/-- Instruction-set architectures, as in `gem5.isas.ISA`.  The EXIT handler of
`run-is.py` branches on whether the board's ISA is ARM (line 91). -/
inductive ISA
  | ARM
  | MIPS
  | POWER
  | RISCV
  | SPARC
  | X86
deriving DecidableEq

/-- Exit-event kinds, as in `gem5.simulate.exit_event.ExitEvent`.  The script
registers handlers only for EXIT, WORKBEGIN and WORKEND (lines 116-120);
CHECKPOINT and MAX_TICK stand for kinds with no registered handler. -/
inductive ExitEvent
  | EXIT
  | WORKBEGIN
  | WORKEND
  | CHECKPOINT
  | MAX_TICK
deriving DecidableEq

/-- One observable side effect performed by a handler step of `run-is.py`:
a printed notice, `m5.stats.reset()`, `processor.switch()`, or
`simulator.schedule_max_insts(n)`. -/
inductive Action
  | print (msg : String)
  | statsReset
  | processorSwitch
  | scheduleMaxInsts (n : Nat)
deriving DecidableEq

/-- The `on_exit` generator (lines 90-97).  The ARM test is evaluated on the
first resume; when it holds the generator yields `True` at once (no prints)
and on later resumes falls through to the two notice steps, so the ARM branch
prepends one halting step in front of the two-step sequence.  On any other ISA
step 0 prints the kernel-boot notice and yields `False`, step 1 prints the
systemd-complete notice and yields `False`; a further resume exhausts the
generator. -/
def on_exit (isa : ISA) : Nat → Option (List Action × Bool)
  | 0 =>
    if isa = ISA.ARM then some ([], true)
    else some ([Action.print "Exiting the simulation for kernel boot"], false)
  | 1 =>
    if isa = ISA.ARM then
      some ([Action.print "Exiting the simulation for kernel boot"], false)
    else some ([Action.print "Exiting the simulation for systemd complete"], false)
  | 2 =>
    if isa = ISA.ARM then
      some ([Action.print "Exiting the simulation for systemd complete"], false)
    else none
  | _ + 3 => none

/-- The `on_work_begin` generator (lines 100-106): a single step that prints
the switch notice, resets the statistics, switches the processor, prints the
budget notice, schedules a 10,000,000-instruction ceiling, and yields `False`;
any further resume exhausts the generator. -/
def on_work_begin : Nat → Option (List Action × Bool)
  | 0 =>
    some
      ([Action.print "Work begin. Switching to detailed CPU",
        Action.statsReset,
        Action.processorSwitch,
        Action.print "Running for 10,000,000 instructions on any thread",
        Action.scheduleMaxInsts 10000000],
       false)
  | _ + 1 => none

/-- The `on_work_end` generator (lines 109-111): a single step that prints the
work-end notice and yields `True`; any further resume exhausts the
generator. -/
def on_work_end : Nat → Option (List Action × Bool)
  | 0 => some ([Action.print "Work end"], true)
  | _ + 1 => none

/-- CPU model fidelity levels, as in `gem5.components.processors.cpu_types`. -/
inductive CPUTypes
  | KVM
  | TIMING
  | ATOMIC
  | O3
deriving DecidableEq

/-- Static configuration of the `SimpleSwitchableProcessor` built in
`get_x86_board` (lines 43-48). -/
structure SwitchableProcessorConfig where
  starting_core_type : CPUTypes
  switch_core_type : CPUTypes
  isa : ISA
  num_cores : Nat
deriving DecidableEq

/-- The processor instantiated by `get_x86_board` (lines 43-48): KVM starting
cores, TIMING switch cores, X86, four cores. -/
def x86_processor : SwitchableProcessorConfig :=
  { starting_core_type := CPUTypes.KVM
    switch_core_type := CPUTypes.TIMING
    isa := ISA.X86
    num_cores := 4 }

/-- Modelled from the spec: ProcessorState is the tagged variant with exactly
one active representation at a time, `Functional` (the fast starting cores)
or `Timing` (the detailed switch cores). -/
inductive ProcessorState
  | Functional
  | Timing
deriving DecidableEq

/-- The failure kinds of the controller: an exit-event kind with no registered
handler, a handler sequence resumed past its last step, and a processor switch
fired out of order. -/
inductive ControllerError
  | UnknownEvent
  | SequenceExhausted
  | InvalidSwitch
deriving DecidableEq

/-- Modelled from the spec: `ProcessorSwitchFacade.switchToTiming`.  The body
of `SimpleSwitchableProcessor.switch` (invoked at line 103) is gem5 library
code absent from the sources; the spec gives precondition `Functional`,
postcondition `Timing`, and `InvalidSwitch` when already `Timing`. -/
def switchToTiming : ProcessorState → Except ControllerError ProcessorState
  | ProcessorState.Functional => Except.ok ProcessorState.Timing
  | ProcessorState.Timing => Except.error ControllerError.InvalidSwitch

/-- Per-core CPU types active in a given processor state: every core runs the
starting type before the switch and the detailed switch type after it. -/
def activeCoreTypes (cfg : SwitchableProcessorConfig) : ProcessorState → List CPUTypes
  | ProcessorState.Functional => List.replicate cfg.num_cores cfg.starting_core_type
  | ProcessorState.Timing => List.replicate cfg.num_cores cfg.switch_core_type

/-- The three handler sequences registered by the script. -/
inductive HandlerId
  | exitHandler
  | workBeginHandler
  | workEndHandler
deriving DecidableEq

/-- Modelled from the spec: the HandlerRegistry, populated once from the
`on_exit_event` dictionary (lines 116-120) and never mutated; kinds without an
entry have no handler. -/
def registryLookup : ExitEvent → Option HandlerId
  | ExitEvent.EXIT => some HandlerId.exitHandler
  | ExitEvent.WORKBEGIN => some HandlerId.workBeginHandler
  | ExitEvent.WORKEND => some HandlerId.workEndHandler
  | _ => none

/-- Mutable state of one simulation run: the configured ISA, the step cursor
of each handler sequence, the active processor representation, and the armed
instruction budget. -/
structure ControllerState where
  isa : ISA
  exitCursor : Nat
  workBeginCursor : Nat
  workEndCursor : Nat
  procState : ProcessorState
  maxInsts : Option Nat
deriving DecidableEq

/-- State at the start of a run: all cursors 0, functional processor, no
budget armed. -/
def initState (isa : ISA) : ControllerState :=
  { isa := isa
    exitCursor := 0
    workBeginCursor := 0
    workEndCursor := 0
    procState := ProcessorState.Functional
    maxInsts := none }

/-- The next step of the given handler sequence at its current cursor. -/
def handlerStep (s : ControllerState) : HandlerId → Option (List Action × Bool)
  | HandlerId.exitHandler => on_exit s.isa s.exitCursor
  | HandlerId.workBeginHandler => on_work_begin s.workBeginCursor
  | HandlerId.workEndHandler => on_work_end s.workEndCursor

/-- Advance the given handler's cursor by one, leaving the others unchanged. -/
def bumpCursor (s : ControllerState) : HandlerId → ControllerState
  | HandlerId.exitHandler => { s with exitCursor := s.exitCursor + 1 }
  | HandlerId.workBeginHandler => { s with workBeginCursor := s.workBeginCursor + 1 }
  | HandlerId.workEndHandler => { s with workEndCursor := s.workEndCursor + 1 }

/-- Advance one handler sequence by one step from its cursor, bumping that
cursor; resuming an exhausted sequence signals `SequenceExhausted`. -/
def handlerAdvance (s : ControllerState) (h : HandlerId) :
    Except ControllerError (List Action × Bool × ControllerState) :=
  match handlerStep s h with
  | some (acts, halt) => Except.ok (acts, halt, bumpCursor s h)
  | none => Except.error ControllerError.SequenceExhausted

/-- Modelled from the spec: the controller's reaction to one raised event —
look the kind up in the registry (`UnknownEvent` when absent) and advance the
matching handler sequence.  The `Simulator` loop performing this is gem5
library code absent from the sources. -/
def registryAdvance (s : ControllerState) (ev : ExitEvent) :
    Except ControllerError (List Action × Bool × ControllerState) :=
  match registryLookup ev with
  | none => Except.error ControllerError.UnknownEvent
  | some h => handlerAdvance s h

/-- Apply one side effect to the run state: the processor switch moves
`Functional` to `Timing` (and signals `InvalidSwitch` when already `Timing`),
arming the budget records the ceiling; notices and the statistics reset do not
change the control state. -/
def applyAction (s : ControllerState) : Action → Except ControllerError ControllerState
  | Action.print _ => Except.ok s
  | Action.statsReset => Except.ok s
  | Action.processorSwitch =>
    match switchToTiming s.procState with
    | Except.ok p => Except.ok { s with procState := p }
    | Except.error e => Except.error e
  | Action.scheduleMaxInsts n => Except.ok { s with maxInsts := some n }

/-- Apply a step's side effects in order: returns the actions actually
applied, the resulting state, and the error, if any, at which application
stopped. -/
def applyActions (s : ControllerState) : List Action → List Action × ControllerState × Option ControllerError
  | [] => ([], s, none)
  | a :: rest =>
    match applyAction s a with
    | Except.error e => ([], s, some e)
    | Except.ok s1 =>
      let r := applyActions s1 rest
      (a :: r.1, r.2.1, r.2.2)

/-- Outcome of driving the controller over a finite list of raised events:
normal halt, fatal failure, or the event list ran out before a halt
decision.  Each outcome carries the trace of all side effects applied and the
final run state. -/
inductive RunResult
  | halted (trace : List Action) (s : ControllerState)
  | failed (e : ControllerError) (trace : List Action) (s : ControllerState)
  | outOfEvents (trace : List Action) (s : ControllerState)
deriving DecidableEq

/-- The side effects a run outcome applied, in order. -/
def RunResult.trace : RunResult → List Action
  | RunResult.halted t _ => t
  | RunResult.failed _ t _ => t
  | RunResult.outOfEvents t _ => t

/-- Modelled from the spec: the PhaseController loop of `Simulator.run` —
resume the model until it raises a kind, look up and advance the matching
handler, apply its side effects in order, stop normally on a halt decision;
`UnknownEvent`, `SequenceExhausted` and `InvalidSwitch` are fatal, stopping
the loop with no further side effects.  The model's own emissions are the
input event list. -/
def controllerRun (s : ControllerState) (trace : List Action) :
    List ExitEvent → RunResult
  | [] => RunResult.outOfEvents trace s
  | ev :: evs =>
    match registryAdvance s ev with
    | Except.error e => RunResult.failed e trace s
    | Except.ok (acts, halt, s1) =>
      match applyActions s1 acts with
      | (applied, s2, some e) => RunResult.failed e (trace ++ applied) s2
      | (applied, s2, none) =>
        if halt then RunResult.halted (trace ++ applied) s2
        else controllerRun s2 (trace ++ applied) evs

/-- Is an action an arming of the instruction budget (of any size)? -/
def isBudgetArm : Action → Bool
  | Action.scheduleMaxInsts _ => true
  | _ => false

/-- Modelled from the spec: `InstructionBudget.arm` installs a stop condition
that fires once any one hardware thread retires the per-thread limit; given
the retired instruction counts of the threads, the condition has fired when
some thread reached the limit. -/
def budgetTriggered (retiredPerThread : List Nat) (limitPerThread : Nat) : Bool :=
  retiredPerThread.any fun r => limitPerThread ≤ r

/-- How many more times the instruction budget can still be armed from this
state: once while the WORK-BEGIN sequence has not yet fired, never after. -/
def budgetAllowance (s : ControllerState) : Nat :=
  if s.workBeginCursor = 0 then 1 else 0

/-!  Helper lemmas shared by the claim theorems. -/

lemma handlerAdvance_ok (s : ControllerState) (hid : HandlerId) (acts : List Action)
    (halt : Bool) (s1 : ControllerState)
    (h : handlerAdvance s hid = Except.ok (acts, halt, s1)) :
    handlerStep s hid = some (acts, halt) ∧ s1 = bumpCursor s hid := by
  unfold handlerAdvance at h
  split at h
  case _ acts0 halt0 heq =>
    injection h with h1
    injection h1 with ha h2
    injection h2 with hb hs
    subst ha; subst hb; subst hs
    exact ⟨heq, rfl⟩
  case _ => cases h

lemma registryAdvance_ok (s : ControllerState) (ev : ExitEvent) (acts : List Action)
    (halt : Bool) (s1 : ControllerState)
    (h : registryAdvance s ev = Except.ok (acts, halt, s1)) :
    ∃ hid, registryLookup ev = some hid ∧
      handlerStep s hid = some (acts, halt) ∧ s1 = bumpCursor s hid := by
  unfold registryAdvance at h
  split at h
  case _ => cases h
  case _ hid heq =>
    exact ⟨hid, heq, handlerAdvance_ok s hid acts halt s1 h⟩

lemma applyAction_cursors (s : ControllerState) (a : Action) (s1 : ControllerState)
    (h : applyAction s a = Except.ok s1) :
    s1.isa = s.isa ∧ s1.exitCursor = s.exitCursor ∧
      s1.workBeginCursor = s.workBeginCursor ∧ s1.workEndCursor = s.workEndCursor := by
  cases a with
  | print m => injection h with h1; subst h1; exact ⟨rfl, rfl, rfl, rfl⟩
  | statsReset => injection h with h1; subst h1; exact ⟨rfl, rfl, rfl, rfl⟩
  | scheduleMaxInsts n => injection h with h1; subst h1; exact ⟨rfl, rfl, rfl, rfl⟩
  | processorSwitch =>
    unfold applyAction at h
    cases hp : s.procState with
    | Functional =>
      rw [hp] at h
      injection h with h1
      subst h1
      exact ⟨rfl, rfl, rfl, rfl⟩
    | Timing =>
      rw [hp] at h
      simp [switchToTiming] at h

lemma applyActions_fst_sublist : ∀ (acts : List Action) (s : ControllerState),
    List.Sublist (applyActions s acts).1 acts
  | [], _ => List.nil_sublist _
  | a :: rest, s => by
    unfold applyActions
    cases h : applyAction s a with
    | error e => exact List.nil_sublist _
    | ok s1 => exact List.Sublist.cons₂ a (applyActions_fst_sublist rest s1)

lemma applyActions_cursors : ∀ (acts : List Action) (s : ControllerState),
    ((applyActions s acts).2.1).exitCursor = s.exitCursor ∧
      ((applyActions s acts).2.1).workBeginCursor = s.workBeginCursor ∧
      ((applyActions s acts).2.1).workEndCursor = s.workEndCursor
  | [], _ => ⟨rfl, rfl, rfl⟩
  | a :: rest, s => by
    unfold applyActions
    cases h : applyAction s a with
    | error e => exact ⟨rfl, rfl, rfl⟩
    | ok s1 =>
      obtain ⟨_, h1, h2, h3⟩ := applyAction_cursors s a s1 h
      obtain ⟨g1, g2, g3⟩ := applyActions_cursors rest s1
      exact ⟨g1.trans h1, g2.trans h2, g3.trans h3⟩

lemma on_exit_no_budget (isa : ISA) (c : Nat) (acts : List Action) (halt : Bool)
    (h : on_exit isa c = some (acts, halt)) : acts.countP isBudgetArm = 0 := by
  rcases c with _ | _ | _ | n <;> cases isa <;> simp [on_exit] at h <;>
    (obtain ⟨ha, hb⟩ := h; subst ha; rfl)

lemma on_work_end_no_budget (c : Nat) (acts : List Action) (halt : Bool)
    (h : on_work_end c = some (acts, halt)) : acts.countP isBudgetArm = 0 := by
  rcases c with _ | n <;> simp [on_work_end] at h
  obtain ⟨ha, hb⟩ := h
  subst ha
  rfl

lemma registryAdvance_budget (s : ControllerState) (ev : ExitEvent) (acts : List Action)
    (halt : Bool) (s1 : ControllerState)
    (h : registryAdvance s ev = Except.ok (acts, halt, s1)) :
    acts.countP isBudgetArm + budgetAllowance s1 ≤ budgetAllowance s := by
  obtain ⟨hid, hlook, hstep, hbump⟩ := registryAdvance_ok s ev acts halt s1 h
  cases hid with
  | exitHandler =>
    have hz : acts.countP isBudgetArm = 0 := on_exit_no_budget s.isa s.exitCursor acts halt hstep
    have hb : s1.workBeginCursor = s.workBeginCursor := by rw [hbump]; rfl
    simp [budgetAllowance, hz, hb]
  | workBeginHandler =>
    rcases hc : s.workBeginCursor with _ | n
    · have hstep0 : on_work_begin 0 = some (acts, halt) := by
        rw [← hc]; exact hstep
      injection hstep0 with h1
      injection h1 with ha hb
      subst ha
      have hb1 : s1.workBeginCursor = s.workBeginCursor + 1 := by rw [hbump]; rfl
      simp [budgetAllowance, hb1, hc]
      decide
    · have hstep1 : on_work_begin (n + 1) = some (acts, halt) := by
        rw [← hc]; exact hstep
      cases hstep1
  | workEndHandler =>
    have hz : acts.countP isBudgetArm = 0 := on_work_end_no_budget s.workEndCursor acts halt hstep
    have hb : s1.workBeginCursor = s.workBeginCursor := by rw [hbump]; rfl
    simp [budgetAllowance, hz, hb]

lemma controllerRun_budget : ∀ (evs : List ExitEvent) (s : ControllerState) (trace : List Action),
    ((controllerRun s trace evs).trace).countP isBudgetArm ≤
      trace.countP isBudgetArm + budgetAllowance s := by
  intro evs
  induction evs with
  | nil => intro s trace; simp [controllerRun, RunResult.trace]
  | cons ev evs ih =>
    intro s trace
    unfold controllerRun
    split
    · simp [RunResult.trace]
    · next acts halt s1 hadv =>
      have hkey := registryAdvance_budget s ev acts halt s1 hadv
      split
      · next applied s2 e happ =>
        have hsub : List.Sublist applied acts := by
          have h0 := applyActions_fst_sublist acts s1
          rw [happ] at h0
          exact h0
        have hcnt : applied.countP isBudgetArm ≤ acts.countP isBudgetArm := hsub.countP_le _
        simp only [RunResult.trace, List.countP_append]
        omega
      · next applied s2 happ =>
        have hsub : List.Sublist applied acts := by
          have h0 := applyActions_fst_sublist acts s1
          rw [happ] at h0
          exact h0
        have hcnt : applied.countP isBudgetArm ≤ acts.countP isBudgetArm := hsub.countP_le _
        have hcur : budgetAllowance s2 = budgetAllowance s1 := by
          have h0 := (applyActions_cursors acts s1).2.1
          rw [happ] at h0
          unfold budgetAllowance
          rw [h0]
        cases halt with
        | true =>
          rw [if_pos rfl]
          simp only [RunResult.trace, List.countP_append]
          omega
        | false =>
          rw [if_neg Bool.false_ne_true]
          have hih := ih s2 (trace ++ applied)
          rw [List.countP_append] at hih
          omega

/-!  Claim theorems. -/

/-- C1: For the EXIT handler on a non-ARM architecture, the first `advance()`
returns halt `false` and emits exactly one kernel-boot notice, and the second
returns halt `false` and emits exactly one systemd-complete notice; on ARM the
very first EXIT `advance()` returns halt `true` and emits no notices. -/
theorem exit_handler_first_firings (isa : ISA) (hne : isa ≠ ISA.ARM) :
    on_exit isa 0 = some ([Action.print "Exiting the simulation for kernel boot"], false) ∧
    on_exit isa 1 = some ([Action.print "Exiting the simulation for systemd complete"], false) ∧
    on_exit ISA.ARM 0 = some ([], true) := by
  refine ⟨?_, ?_, rfl⟩ <;> simp [on_exit, hne]

/-- Witness for C1 at the script's configured X86 board. -/
theorem exit_handler_first_firings_witness :
    on_exit ISA.X86 0 = some ([Action.print "Exiting the simulation for kernel boot"], false) ∧
    on_exit ISA.X86 1 = some ([Action.print "Exiting the simulation for systemd complete"], false) ∧
    on_exit ISA.ARM 0 = some ([], true) :=
  exit_handler_first_firings ISA.X86 (by decide)

/-- C2: The single WORK-BEGIN step applies the statistics reset exactly once,
strictly before the processor switch and strictly before the instruction
budget is armed, and returns halt `false`; the sequence has no second step, so
the reset happens at most once per run. -/
theorem work_begin_reset_ordering :
    (∃ acts, on_work_begin 0 = some (acts, false) ∧
      acts.count Action.statsReset = 1 ∧
      acts.indexOf Action.statsReset < acts.indexOf Action.processorSwitch ∧
      acts.indexOf Action.statsReset < acts.indexOf (Action.scheduleMaxInsts 10000000)) ∧
    (∀ c, on_work_begin (c + 1) = none) := by
  exact ⟨⟨_, rfl, by decide, by decide, by decide⟩, fun c => rfl⟩

/-- C3: Driving the controller from the initial X86 state over the event
sequence EXIT, EXIT, WORKBEGIN, WORKEND applies every handler reaction in
order, switches the processor exactly once (right after WORKBEGIN fires),
resets the statistics exactly once, and terminates normally after WORKEND
with a halt decision, ending in the Timing state. -/
theorem scenario_a_run :
    controllerRun (initState ISA.X86) []
        [ExitEvent.EXIT, ExitEvent.EXIT, ExitEvent.WORKBEGIN, ExitEvent.WORKEND] =
      RunResult.halted
        [Action.print "Exiting the simulation for kernel boot",
         Action.print "Exiting the simulation for systemd complete",
         Action.print "Work begin. Switching to detailed CPU",
         Action.statsReset,
         Action.processorSwitch,
         Action.print "Running for 10,000,000 instructions on any thread",
         Action.scheduleMaxInsts 10000000,
         Action.print "Work end"]
        { isa := ISA.X86, exitCursor := 2, workBeginCursor := 1, workEndCursor := 1,
          procState := ProcessorState.Timing, maxInsts := some 10000000 } ∧
    List.count Action.processorSwitch
        [Action.print "Exiting the simulation for kernel boot",
         Action.print "Exiting the simulation for systemd complete",
         Action.print "Work begin. Switching to detailed CPU",
         Action.statsReset,
         Action.processorSwitch,
         Action.print "Running for 10,000,000 instructions on any thread",
         Action.scheduleMaxInsts 10000000,
         Action.print "Work end"] = 1 ∧
    List.count Action.statsReset
        [Action.print "Exiting the simulation for kernel boot",
         Action.print "Exiting the simulation for systemd complete",
         Action.print "Work begin. Switching to detailed CPU",
         Action.statsReset,
         Action.processorSwitch,
         Action.print "Running for 10,000,000 instructions on any thread",
         Action.scheduleMaxInsts 10000000,
         Action.print "Work end"] = 1 := by
  exact ⟨rfl, by decide, by decide⟩

/-- C4: Advancing any handler sequence that has no more steps signals
`SequenceExhausted`; in particular a second WORKBEGIN firing in the same run
does, and in a full run it is fatal: the controller stops with the failure
instead of producing a normal result. -/
theorem sequence_exhausted_fatal :
    (∀ (s : ControllerState) (hid : HandlerId), handlerStep s hid = none →
        handlerAdvance s hid = Except.error ControllerError.SequenceExhausted) ∧
    (∀ s : ControllerState, 1 ≤ s.workBeginCursor →
        registryAdvance s ExitEvent.WORKBEGIN = Except.error ControllerError.SequenceExhausted) ∧
    controllerRun (initState ISA.X86) []
        [ExitEvent.EXIT, ExitEvent.EXIT, ExitEvent.WORKBEGIN, ExitEvent.WORKBEGIN] =
      RunResult.failed ControllerError.SequenceExhausted
        [Action.print "Exiting the simulation for kernel boot",
         Action.print "Exiting the simulation for systemd complete",
         Action.print "Work begin. Switching to detailed CPU",
         Action.statsReset,
         Action.processorSwitch,
         Action.print "Running for 10,000,000 instructions on any thread",
         Action.scheduleMaxInsts 10000000]
        { isa := ISA.X86, exitCursor := 2, workBeginCursor := 1, workEndCursor := 0,
          procState := ProcessorState.Timing, maxInsts := some 10000000 } := by
  refine ⟨?_, ?_, rfl⟩
  · intro s hid h
    unfold handlerAdvance
    rw [h]
  · intro s hc
    have h1 : on_work_begin s.workBeginCursor = none := by
      cases hcase : s.workBeginCursor with
      | zero => omega
      | succ c => rfl
    unfold registryAdvance registryLookup handlerAdvance handlerStep
    rw [h1]

/-- C5: An exit-event kind with no registered handler fails the registry
lookup with `UnknownEvent`; the failure is fatal (the run stops with the
failure, not a normal result) and no handler side effects execute after the
failure point, as the concrete run raising CHECKPOINT mid-sequence shows. -/
theorem unknown_event_fatal :
    (∀ ev : ExitEvent, registryLookup ev = none →
        ∀ s : ControllerState, registryAdvance s ev = Except.error ControllerError.UnknownEvent) ∧
    registryLookup ExitEvent.CHECKPOINT = none ∧
    controllerRun (initState ISA.X86) []
        [ExitEvent.EXIT, ExitEvent.CHECKPOINT, ExitEvent.EXIT, ExitEvent.WORKBEGIN,
         ExitEvent.WORKEND] =
      RunResult.failed ControllerError.UnknownEvent
        [Action.print "Exiting the simulation for kernel boot"]
        { isa := ISA.X86, exitCursor := 1, workBeginCursor := 0, workEndCursor := 0,
          procState := ProcessorState.Functional, maxInsts := none } := by
  refine ⟨?_, rfl, rfl⟩
  intro ev hev s
  unfold registryAdvance
  rw [hev]

/-- C6: The processor switch is one-directional within a run: from
`Functional` it succeeds and leaves the `Timing` state, in which every one of
the four configured cores runs the detailed TIMING model; from `Timing` it
signals `InvalidSwitch`, so a second switch in the same run fails, as the
concrete double application shows. -/
theorem switch_to_timing_contract :
    switchToTiming ProcessorState.Functional = Except.ok ProcessorState.Timing ∧
    activeCoreTypes x86_processor ProcessorState.Timing =
      List.replicate x86_processor.num_cores CPUTypes.TIMING ∧
    switchToTiming ProcessorState.Timing = Except.error ControllerError.InvalidSwitch ∧
    applyActions (initState ISA.X86) [Action.processorSwitch, Action.processorSwitch] =
      ([Action.processorSwitch],
       { initState ISA.X86 with procState := ProcessorState.Timing },
       some ControllerError.InvalidSwitch) := by
  exact ⟨rfl, rfl, rfl, rfl⟩

/-- C7: The WORK-END handler has a single step: its first firing emits the
work-end notice and returns halt `true`, upon which the controller loop stops
the model and returns normally; the sequence has no second step. -/
theorem work_end_single_step :
    on_work_end 0 = some ([Action.print "Work end"], true) ∧
    (∀ c, on_work_end (c + 1) = none) ∧
    controllerRun (initState ISA.X86) [] [ExitEvent.WORKEND] =
      RunResult.halted [Action.print "Work end"]
        { isa := ISA.X86, exitCursor := 0, workBeginCursor := 0, workEndCursor := 1,
          procState := ProcessorState.Functional, maxInsts := none } := by
  exact ⟨rfl, fun c => rfl, rfl⟩

/-- C8: The WORK-BEGIN step arms exactly one instruction budget, the fixed
constant 10,000,000 instructions; over any event sequence the run arms the
budget at most once; and the armed stop condition fires exactly when some one
thread has retired at least the per-thread limit. -/
theorem instruction_budget_contract :
    (∃ acts, on_work_begin 0 = some (acts, false) ∧
        acts.filter isBudgetArm = [Action.scheduleMaxInsts 10000000]) ∧
    (∀ evs : List ExitEvent,
        ((controllerRun (initState ISA.X86) [] evs).trace).countP isBudgetArm ≤ 1) ∧
    (∀ (retired : List Nat) (limit : Nat),
        budgetTriggered retired limit = true ↔ ∃ r ∈ retired, limit ≤ r) := by
  refine ⟨⟨_, rfl, by decide⟩, ?_, ?_⟩
  · intro evs
    have h := controllerRun_budget evs (initState ISA.X86) []
    simpa [budgetAllowance, initState] using h
  · intro retired limit
    simp [budgetTriggered]

/-- C9: Handler cursors are 0-based at run start; each successful firing
advances exactly the fired kind's cursor by one and leaves the other cursors
unchanged; and applying side effects never changes any cursor, so cursors are
preserved across the suspensions between firings and never reset mid-run. -/
theorem cursor_monotone_invariant :
    (∀ isa, (initState isa).exitCursor = 0 ∧ (initState isa).workBeginCursor = 0 ∧
        (initState isa).workEndCursor = 0) ∧
    (∀ (s : ControllerState) (ev : ExitEvent) (acts : List Action) (halt : Bool)
        (s1 : ControllerState), registryAdvance s ev = Except.ok (acts, halt, s1) →
        s1.exitCursor = s.exitCursor + (if ev = ExitEvent.EXIT then 1 else 0) ∧
        s1.workBeginCursor = s.workBeginCursor + (if ev = ExitEvent.WORKBEGIN then 1 else 0) ∧
        s1.workEndCursor = s.workEndCursor + (if ev = ExitEvent.WORKEND then 1 else 0)) ∧
    (∀ (s : ControllerState) (a : Action) (s1 : ControllerState),
        applyAction s a = Except.ok s1 →
        s1.exitCursor = s.exitCursor ∧ s1.workBeginCursor = s.workBeginCursor ∧
        s1.workEndCursor = s.workEndCursor) := by
  refine ⟨fun isa => ⟨rfl, rfl, rfl⟩, ?_, ?_⟩
  · intro s ev acts halt s1 h
    obtain ⟨hid, hlook, hstep, hbump⟩ := registryAdvance_ok s ev acts halt s1 h
    subst hbump
    cases ev <;> cases hid <;> simp_all [registryLookup, bumpCursor]
  · intro s a s1 h
    exact (applyAction_cursors s a s1 h).2

/-- C10: On ARM the EXIT sequence is not exhausted by its first, halting step:
the second firing emits the kernel-boot notice with halt `false`, the third
emits the systemd-complete notice with halt `false`, and only a fourth firing
exhausts it — the ARM branch prepends a halting step to the two-step
sequence. -/
theorem arm_exit_sequence_prepended :
    on_exit ISA.ARM 0 = some ([], true) ∧
    on_exit ISA.ARM 1 = some ([Action.print "Exiting the simulation for kernel boot"], false) ∧
    on_exit ISA.ARM 2 = some ([Action.print "Exiting the simulation for systemd complete"], false) ∧
    on_exit ISA.ARM 3 = none := by
  exact ⟨rfl, rfl, rfl, rfl⟩

end RunIS
